import Mathlib

/-!
Verification of the WaykiChain DEX transaction subsystem (src/tx/dextx.h and
the DEX order entities header) against its natural-language specification.

The C++ code is shallowly embedded: machine integers become `Nat` (with
explicit `% 2^w` where the code truncates), byte streams become `List Nat`,
strings become byte lists, `std::optional` becomes `Option`, and fallible
decoding returns `Option`.  Signature hashes are compared through their
SHA256d preimages: the hash functions below return the exact byte stream the
source feeds into `CHashWriter`, double-SHA256 itself being an external
injective-up-to-collision primitive.
-/

/-! ## Canonical variable-length integers

Modelled from the spec: `VARINT(u)` is the base-128 big-endian
variable-length integer with high-bit continuation on all but the last byte,
canonical (no redundant leading bytes); the serializer itself lives in the
repository's serialize.h, outside the files in scope.  The canonical form
offsets each continuation step by one, exactly as the reference
implementation does. -/

/-- Continuation bytes (`0x80`-flagged) of the canonical varint encoder. -/
def writeVarIntCont (m : Nat) : List Nat :=
  if m ≤ 127 then [m + 128]
  else writeVarIntCont (m / 128 - 1) ++ [m % 128 + 128]
termination_by m
decreasing_by
  have h2 : m / 128 < m := Nat.div_lt_self (by omega) (by omega)
  omega

/-- Canonical varint encoding of `n` (big-endian base 128). -/
def writeVarInt (n : Nat) : List Nat :=
  if n ≤ 127 then [n]
  else writeVarIntCont (n / 128 - 1) ++ [n % 128]

/-- Varint decoding loop: accumulate continuation bytes, stop at the first
byte without the high bit. -/
def readVarIntAux : List Nat → Nat → Option (Nat × List Nat)
  | [], _ => none
  | b :: rest, acc =>
    if b < 128 then some (acc * 128 + b, rest)
    else readVarIntAux rest (acc * 128 + (b - 128) + 1)

/-- Decode one canonical varint from the head of a byte stream. -/
def readVarInt (l : List Nat) : Option (Nat × List Nat) :=
  readVarIntAux l 0

theorem readVarIntAux_writeVarIntCont (m : Nat) :
    ∀ rest : List Nat,
      readVarIntAux (writeVarIntCont m ++ rest) 0 = readVarIntAux rest (m + 1) := by
  induction m using Nat.strong_induction_on with
  | _ m ih =>
    intro rest
    by_cases h : m ≤ 127
    · rw [writeVarIntCont, if_pos h]
      simp [readVarIntAux]
    · rw [writeVarIntCont, if_neg h]
      have hlt : m / 128 < m := Nat.div_lt_self (by omega) (by omega)
      have h1 : m / 128 ≥ 1 := Nat.one_le_div_iff (by omega) |>.mpr (by omega)
      rw [List.append_assoc, ih (m / 128 - 1) (by omega)]
      have hb : ¬ (m % 128 + 128 < 128) := by omega
      simp only [List.cons_append, List.nil_append, readVarIntAux, if_neg hb]
      have : (m / 128 - 1 + 1) * 128 + (m % 128 + 128 - 128) + 1 = m + 1 := by
        have := Nat.div_add_mod m 128
        omega
      rw [this]
      rfl

/-- Round trip: decoding the encoding of `n`, followed by any tail, gives back
`n` and the tail. -/
theorem readVarInt_writeVarInt (n : Nat) (rest : List Nat) :
    readVarInt (writeVarInt n ++ rest) = some (n, rest) := by
  by_cases h : n ≤ 127
  · rw [writeVarInt, if_pos h]
    simp only [List.cons_append, List.nil_append, readVarInt, readVarIntAux,
      if_pos (show n < 128 by omega)]
    simp
  · rw [writeVarInt, if_neg h, readVarInt, List.append_assoc,
        readVarIntAux_writeVarIntCont]
    have h1 : n / 128 ≥ 1 := Nat.one_le_div_iff (by omega) |>.mpr (by omega)
    have hb : n % 128 < 128 := Nat.mod_lt _ (by omega)
    simp only [List.cons_append, List.nil_append, readVarIntAux, if_pos hb]
    have h2 : (n / 128 - 1 + 1) * 128 + n % 128 = n := by
      have := Nat.div_add_mod n 128
      omega
    rw [h2]
    rfl

/-- The varint encoding is self-delimiting: equal streams starting with
varints carry equal values and equal tails. -/
theorem writeVarInt_append_inj {a b : Nat} {r s : List Nat}
    (h : writeVarInt a ++ r = writeVarInt b ++ s) : a = b ∧ r = s := by
  have ha := readVarInt_writeVarInt a r
  rw [h, readVarInt_writeVarInt b s] at ha
  exact ⟨(Prod.mk.injEq _ _ _ _ ▸ Option.some.inj ha).1.symm,
         (Prod.mk.injEq _ _ _ _ ▸ Option.some.inj ha).2.symm⟩

/-! ## Strings, raw bytes and fixed-width fields

Modelled from the spec: a `String` on the wire is a varint length followed by
its raw bytes; fixed-width identifiers (`TxId`, i.e. `uint256`) keep their
canonical 32 raw bytes.  The generic serializer lives in the repository's
serialize.h, outside the files in scope. -/

/-- Wire form of a byte string: varint length, then the bytes. -/
def serString (s : List Nat) : List Nat :=
  writeVarInt s.length ++ s

/-- Decode a length-prefixed byte string. -/
def parseString (l : List Nat) : Option (List Nat × List Nat) :=
  match readVarInt l with
  | none => none
  | some (n, l1) => if n ≤ l1.length then some (l1.take n, l1.drop n) else none

theorem parseString_serString (s : List Nat) (rest : List Nat) :
    parseString (serString s ++ rest) = some (s, rest) := by
  rw [parseString, serString, List.append_assoc, readVarInt_writeVarInt]
  simp

/-- Length-prefixed strings are self-delimiting. -/
theorem serString_append_inj {a b : List Nat} {r s : List Nat}
    (h : serString a ++ r = serString b ++ s) : a = b ∧ r = s := by
  have ha := parseString_serString a r
  rw [h, parseString_serString b s] at ha
  exact ⟨(Prod.mk.injEq _ _ _ _ ▸ Option.some.inj ha).1.symm,
         (Prod.mk.injEq _ _ _ _ ▸ Option.some.inj ha).2.symm⟩

/-- One raw byte on the wire; the C++ casts truncate to eight bits. -/
def serByte (b : Nat) : List Nat :=
  [b % 256]

/-- Read one raw byte. -/
def parseByte : List Nat → Option (Nat × List Nat)
  | [] => none
  | b :: rest => some (b, rest)

theorem parseByte_serByte {b : Nat} (hb : b < 256) (rest : List Nat) :
    parseByte (serByte b ++ rest) = some (b, rest) := by
  simp [serByte, parseByte, Nat.mod_eq_of_lt hb]

/-- Read a fixed number of raw bytes. -/
def parseBytes (n : Nat) (l : List Nat) : Option (List Nat × List Nat) :=
  if n ≤ l.length then some (l.take n, l.drop n) else none

theorem parseBytes_append {s : List Nat} (rest : List Nat) :
    parseBytes s.length (s ++ rest) = some (s, rest) := by
  simp [parseBytes]

theorem parseBytes_of_length {n : Nat} {s : List Nat} (h : s.length = n) (rest : List Nat) :
    parseBytes n (s ++ rest) = some (s, rest) := by
  subst h
  exact parseBytes_append rest

/-! ## Identifier types

`CTxCord`, `CRegID` and `CUserID` come from the repository's entity/identity
headers, outside the files in scope.  Modelled from the spec: `TxCord` is the
`(block_height, block_index)` pair, `RegId` is an account identifier with an
empty sentinel, and both use the canonical self-delimiting forms supplied by
the external identity library (varint components here); `tx_uid` is an opaque
canonical byte form, modelled length-prefixed so it stays self-delimiting. -/

/-- `(block_height, block_index)` of the originating transaction. -/
structure CTxCord where
  nHeight : Nat
  nIndex : Nat
deriving DecidableEq

def CTxCord.serialize (c : CTxCord) : List Nat :=
  writeVarInt c.nHeight ++ writeVarInt c.nIndex

def CTxCord.deserialize (l : List Nat) : Option (CTxCord × List Nat) :=
  match readVarInt l with
  | none => none
  | some (h, l1) =>
    match readVarInt l1 with
    | none => none
    | some (i, l2) => some (⟨h, i⟩, l2)

/-- `CTxCord::SetEmpty` zeroes both components. -/
def CTxCord.SetEmpty (_ : CTxCord) : CTxCord := ⟨0, 0⟩

theorem txCord_roundtrip (c : CTxCord) (rest : List Nat) :
    CTxCord.deserialize (CTxCord.serialize c ++ rest) = some (c, rest) := by
  simp [CTxCord.deserialize, CTxCord.serialize, List.append_assoc,
    readVarInt_writeVarInt]

/-- Account register identifier. -/
structure CRegID where
  nHeight : Nat
  nIndex : Nat
deriving DecidableEq

def CRegID.serialize (r : CRegID) : List Nat :=
  writeVarInt r.nHeight ++ writeVarInt r.nIndex

def CRegID.deserialize (l : List Nat) : Option (CRegID × List Nat) :=
  match readVarInt l with
  | none => none
  | some (h, l1) =>
    match readVarInt l1 with
    | none => none
    | some (i, l2) => some (⟨h, i⟩, l2)

/-- `CRegID::SetEmpty` resets to the empty sentinel. -/
def CRegID.SetEmpty (_ : CRegID) : CRegID := ⟨0, 0⟩

/-- `CRegID::IsEmpty`: both components zero. -/
def CRegID.IsEmpty (r : CRegID) : Bool :=
  r.nHeight == 0 && r.nIndex == 0

theorem regID_roundtrip (r : CRegID) (rest : List Nat) :
    CRegID.deserialize (CRegID.serialize r ++ rest) = some (r, rest) := by
  simp [CRegID.deserialize, CRegID.serialize, List.append_assoc,
    readVarInt_writeVarInt]

theorem CRegID.serialize_inj {a b : CRegID} (h : CRegID.serialize a = CRegID.serialize b) :
    a = b := by
  have h2 : CRegID.serialize a ++ [] = CRegID.serialize b ++ [] := by rw [h]
  have ha := regID_roundtrip a []
  rw [h2, regID_roundtrip b []] at ha
  exact ((Prod.mk.injEq _ _ _ _ ▸ Option.some.inj ha).1).symm

/-- Opaque canonical byte form of a `CUserID`. -/
abbrev CUserID : Type := List Nat

/-- Wire/hash form of a `CUserID` (self-delimiting canonical bytes). -/
def serCUserID (u : CUserID) : List Nat :=
  serString u

/-- `CSignaturePair { regid, signature }` as used for the operator co-signer. -/
structure CSignaturePair where
  regid : CRegID
  signature : List Nat
deriving DecidableEq

/-- `std::optional<CRegID>` on the wire / in the hash: presence flag byte, then
the payload (spec section on `Option<T>`). -/
def serOptionCRegID : Option CRegID → List Nat
  | none => [0]
  | some r => [1] ++ CRegID.serialize r

theorem serOptionCRegID_inj {a b : Option CRegID}
    (h : serOptionCRegID a = serOptionCRegID b) : a = b := by
  cases a with
  | none =>
    cases b with
    | none => rfl
    | some rb => simp [serOptionCRegID] at h
  | some ra =>
    cases b with
    | none => simp [serOptionCRegID] at h
    | some rb =>
      simp only [serOptionCRegID, List.cons_append, List.nil_append,
        List.cons.injEq, true_and] at h
      rw [CRegID.serialize_inj h]

/-! ## Enumerations and constants (entities/dexorder.h) -/

/-- `typedef uint32_t DexID`. -/
abbrev DexID : Type := Nat

/-- `static const DexID DEX_RESERVED_ID = 0`. -/
def DEX_RESERVED_ID : DexID := 0

/-- `OrderSide::ORDER_BUY = 1`. -/
def ORDER_BUY : Nat := 1

/-- `OrderSide::ORDER_SELL = 2`. -/
def ORDER_SELL : Nat := 2

/-- `OrderType::ORDER_LIMIT_PRICE = 1`. -/
def ORDER_LIMIT_PRICE : Nat := 1

/-- `OrderType::ORDER_MARKET_PRICE = 2`. -/
def ORDER_MARKET_PRICE : Nat := 2

/-- `OrderGenerateType::EMPTY_ORDER = 0`. -/
def EMPTY_ORDER : Nat := 0

/-- `OrderGenerateType::USER_GEN_ORDER = 1`. -/
def USER_GEN_ORDER : Nat := 1

/-- `OrderGenerateType::SYSTEM_GEN_ORDER = 2`. -/
def SYSTEM_GEN_ORDER : Nat := 2

/-- `OrderOperatorMode::DEFAULT = 0` (the `Mode` value inside the
`OrderOperatorMode` wrapper struct, serialized as one raw byte). -/
def OrderOperatorMode.DEFAULT : Nat := 0

/-- `OrderOperatorMode::REQUIRE_AUTH = 1`. -/
def OrderOperatorMode.REQUIRE_AUTH : Nat := 1

/-- Short ASCII symbol such as WICC/WUSD, as raw bytes. -/
abbrev TokenSymbol : Type := List Nat

/-! ## DEX entities (entities/dexorder.h and dextx.h) -/

/-- `DEXDealItem`: one matched deal inside a settle transaction.  The two
order ids are `uint256` values, kept as their 32 raw bytes. -/
structure DEXDealItem where
  buyOrderId : List Nat
  sellOrderId : List Nat
  dealPrice : Nat
  dealCoinAmount : Nat
  dealAssetAmount : Nat
deriving DecidableEq

/-- A `uint256` is exactly 32 bytes, each below 256. -/
def DEXDealItem.wf (d : DEXDealItem) : Prop :=
  d.buyOrderId.length = 32 ∧ d.sellOrderId.length = 32

instance (d : DEXDealItem) : Decidable d.wf := by
  unfold DEXDealItem.wf; infer_instance

/-- `IMPLEMENT_SERIALIZE` of `DEXDealItem`: buyOrderId, sellOrderId,
VARINT(dealPrice), VARINT(dealCoinAmount), VARINT(dealAssetAmount). -/
def DEXDealItem.serialize (d : DEXDealItem) : List Nat :=
  let s : List Nat := []
  let s := s ++ d.buyOrderId
  let s := s ++ d.sellOrderId
  let s := s ++ writeVarInt d.dealPrice
  let s := s ++ writeVarInt d.dealCoinAmount
  let s := s ++ writeVarInt d.dealAssetAmount
  s

/-- Decoder of `DEXDealItem`, same field order as the serializer. -/
def DEXDealItem.deserialize (l : List Nat) : Option (DEXDealItem × List Nat) := do
  let (buyOrderId, l) ← parseBytes 32 l
  let (sellOrderId, l) ← parseBytes 32 l
  let (dealPrice, l) ← readVarInt l
  let (dealCoinAmount, l) ← readVarInt l
  let (dealAssetAmount, l) ← readVarInt l
  some (⟨buyOrderId, sellOrderId, dealPrice, dealCoinAmount, dealAssetAmount⟩, l)

theorem dealItem_roundtrip (d : DEXDealItem) (hd : d.wf) (rest : List Nat) :
    DEXDealItem.deserialize (DEXDealItem.serialize d ++ rest) = some (d, rest) := by
  obtain ⟨h1, h2⟩ := hd
  rw [DEXDealItem.serialize]
  simp only [List.nil_append, List.append_assoc]
  rw [DEXDealItem.deserialize, parseBytes_of_length h1]
  simp only [Option.bind_eq_bind, Option.some_bind]
  rw [parseBytes_of_length h2]
  simp [readVarInt_writeVarInt]

/-- `CDEXOrderDetail`: the full record of an accepted order
(entities/dexorder.h).  Enum-typed fields carry their `uint8_t` numeric
values; the `OrderOperatorMode` wrapper is its `Mode` byte. -/
structure CDEXOrderDetail where
  mode : Nat
  dex_id : DexID
  operator_fee_ratio : Nat
  generate_type : Nat
  order_type : Nat
  order_side : Nat
  coin_symbol : TokenSymbol
  asset_symbol : TokenSymbol
  coin_amount : Nat
  asset_amount : Nat
  price : Nat
  tx_cord : CTxCord
  user_regid : CRegID
  total_deal_coin_amount : Nat
  total_deal_asset_amount : Nat
deriving DecidableEq

/-- The in-class member initializers of `CDEXOrderDetail` (the value a
default-constructed detail holds). -/
def CDEXOrderDetail.defaultValue : CDEXOrderDetail :=
  { mode := OrderOperatorMode.DEFAULT
    dex_id := 0
    operator_fee_ratio := 0
    generate_type := EMPTY_ORDER
    order_type := ORDER_LIMIT_PRICE
    order_side := ORDER_BUY
    coin_symbol := []
    asset_symbol := []
    coin_amount := 0
    asset_amount := 0
    price := 0
    tx_cord := ⟨0, 0⟩
    user_regid := ⟨0, 0⟩
    total_deal_coin_amount := 0
    total_deal_asset_amount := 0 }

/-- The single-byte enum fields hold `uint8_t` values. -/
def CDEXOrderDetail.wf (d : CDEXOrderDetail) : Prop :=
  d.mode < 256 ∧ d.generate_type < 256 ∧ d.order_type < 256 ∧ d.order_side < 256

instance (d : CDEXOrderDetail) : Decidable d.wf := by
  unfold CDEXOrderDetail.wf; infer_instance

/-- `IMPLEMENT_SERIALIZE` of `CDEXOrderDetail`, statement for statement: note
the second `READWRITE(tx_cord)` at the end of the block. -/
def CDEXOrderDetail.serialize (d : CDEXOrderDetail) : List Nat :=
  let s : List Nat := []
  let s := s ++ serByte d.mode
  let s := s ++ writeVarInt d.dex_id
  let s := s ++ writeVarInt d.operator_fee_ratio
  let s := s ++ serByte d.generate_type
  let s := s ++ serByte d.order_type
  let s := s ++ serByte d.order_side
  let s := s ++ serString d.coin_symbol
  let s := s ++ serString d.asset_symbol
  let s := s ++ writeVarInt d.coin_amount
  let s := s ++ writeVarInt d.asset_amount
  let s := s ++ writeVarInt d.price
  let s := s ++ CTxCord.serialize d.tx_cord
  let s := s ++ CRegID.serialize d.user_regid
  let s := s ++ writeVarInt d.total_deal_coin_amount
  let s := s ++ writeVarInt d.total_deal_asset_amount
  let s := s ++ CTxCord.serialize d.tx_cord
  s

/-- Decoder of `CDEXOrderDetail`, the same statement sequence read back; the
trailing duplicate `tx_cord` read lands in the same member, overwriting the
mid-struct one exactly as the C++ stream operator does. -/
def CDEXOrderDetail.deserialize (l : List Nat) : Option (CDEXOrderDetail × List Nat) :=
  match parseByte l with
  | none => none
  | some (mode, l) =>
  match readVarInt l with
  | none => none
  | some (dex_id, l) =>
  match readVarInt l with
  | none => none
  | some (operator_fee_ratio, l) =>
  match parseByte l with
  | none => none
  | some (generate_type, l) =>
  match parseByte l with
  | none => none
  | some (order_type, l) =>
  match parseByte l with
  | none => none
  | some (order_side, l) =>
  match parseString l with
  | none => none
  | some (coin_symbol, l) =>
  match parseString l with
  | none => none
  | some (asset_symbol, l) =>
  match readVarInt l with
  | none => none
  | some (coin_amount, l) =>
  match readVarInt l with
  | none => none
  | some (asset_amount, l) =>
  match readVarInt l with
  | none => none
  | some (price, l) =>
  match CTxCord.deserialize l with
  | none => none
  | some (_tx_cord_mid, l) =>
  match CRegID.deserialize l with
  | none => none
  | some (user_regid, l) =>
  match readVarInt l with
  | none => none
  | some (total_deal_coin_amount, l) =>
  match readVarInt l with
  | none => none
  | some (total_deal_asset_amount, l) =>
  match CTxCord.deserialize l with
  | none => none
  | some (tx_cord, l) =>
    some ({ mode := mode, dex_id := dex_id, operator_fee_ratio := operator_fee_ratio,
            generate_type := generate_type, order_type := order_type,
            order_side := order_side, coin_symbol := coin_symbol,
            asset_symbol := asset_symbol, coin_amount := coin_amount,
            asset_amount := asset_amount, price := price, tx_cord := tx_cord,
            user_regid := user_regid, total_deal_coin_amount := total_deal_coin_amount,
            total_deal_asset_amount := total_deal_asset_amount }, l)


/-- `CDEXOrderDetail::IsEmpty`. -/
def CDEXOrderDetail.IsEmpty (d : CDEXOrderDetail) : Bool :=
  d.generate_type == EMPTY_ORDER

/-- `CDEXOrderDetail::SetEmpty`, assignment for assignment: `mode`, `dex_id`
and `operator_fee_ratio` are not touched by the source. -/
def CDEXOrderDetail.SetEmpty (d : CDEXOrderDetail) : CDEXOrderDetail :=
  { d with
    generate_type := EMPTY_ORDER
    order_type := ORDER_LIMIT_PRICE
    order_side := ORDER_BUY
    coin_symbol := []
    asset_symbol := []
    coin_amount := 0
    asset_amount := 0
    price := 0
    tx_cord := d.tx_cord.SetEmpty
    user_regid := d.user_regid.SetEmpty
    total_deal_coin_amount := 0
    total_deal_asset_amount := 0 }

theorem orderDetail_roundtrip (d : CDEXOrderDetail) (hd : d.wf)
    (rest : List Nat) :
    CDEXOrderDetail.deserialize (CDEXOrderDetail.serialize d ++ rest) = some (d, rest) := by
  obtain ⟨h1, h2, h3, h4⟩ := hd
  simp only [CDEXOrderDetail.serialize, CDEXOrderDetail.deserialize,
    List.nil_append, List.append_assoc,
    parseByte_serByte h1, parseByte_serByte h2, parseByte_serByte h3,
    parseByte_serByte h4, readVarInt_writeVarInt, parseString_serString,
    txCord_roundtrip, regID_roundtrip]

/-- `CDEXActiveOrder`: compact per-order index entry (entities/dexorder.h). -/
structure CDEXActiveOrder where
  generate_type : Nat
  tx_cord : CTxCord
  total_deal_coin_amount : Nat
  total_deal_asset_amount : Nat
deriving DecidableEq

/-- The single-byte `generate_type` holds a `uint8_t` value. -/
def CDEXActiveOrder.wf (a : CDEXActiveOrder) : Prop :=
  a.generate_type < 256

instance (a : CDEXActiveOrder) : Decidable a.wf := by
  unfold CDEXActiveOrder.wf; infer_instance

/-- `IMPLEMENT_SERIALIZE` of `CDEXActiveOrder`. -/
def CDEXActiveOrder.serialize (a : CDEXActiveOrder) : List Nat :=
  let s : List Nat := []
  let s := s ++ serByte a.generate_type
  let s := s ++ CTxCord.serialize a.tx_cord
  let s := s ++ writeVarInt a.total_deal_coin_amount
  let s := s ++ writeVarInt a.total_deal_asset_amount
  s

/-- Decoder of `CDEXActiveOrder`, same field order. -/
def CDEXActiveOrder.deserialize (l : List Nat) : Option (CDEXActiveOrder × List Nat) :=
  match parseByte l with
  | none => none
  | some (generate_type, l) =>
  match CTxCord.deserialize l with
  | none => none
  | some (tx_cord, l) =>
  match readVarInt l with
  | none => none
  | some (total_deal_coin_amount, l) =>
  match readVarInt l with
  | none => none
  | some (total_deal_asset_amount, l) =>
    some ({ generate_type := generate_type, tx_cord := tx_cord,
            total_deal_coin_amount := total_deal_coin_amount,
            total_deal_asset_amount := total_deal_asset_amount }, l)

/-- `CDEXActiveOrder::IsEmpty`. -/
def CDEXActiveOrder.IsEmpty (a : CDEXActiveOrder) : Bool :=
  a.generate_type == EMPTY_ORDER

/-- `CDEXActiveOrder::SetEmpty`. -/
def CDEXActiveOrder.SetEmpty (a : CDEXActiveOrder) : CDEXActiveOrder :=
  { a with
    generate_type := EMPTY_ORDER
    total_deal_coin_amount := 0
    total_deal_asset_amount := 0
    tx_cord := a.tx_cord.SetEmpty }

theorem activeOrder_roundtrip (a : CDEXActiveOrder) (ha : a.wf)
    (rest : List Nat) :
    CDEXActiveOrder.deserialize (CDEXActiveOrder.serialize a ++ rest) = some (a, rest) := by
  simp only [CDEXActiveOrder.serialize, CDEXActiveOrder.deserialize,
    List.nil_append, List.append_assoc,
    parseByte_serByte ha, readVarInt_writeVarInt, txCord_roundtrip]

/-- `DexOperatorDetail`: persistent DEX-operator record keyed by `DexID`
(entities/dexorder.h). -/
structure DexOperatorDetail where
  owner_regid : CRegID
  match_regid : CRegID
  name : List Nat
  portal_url : List Nat
  maker_fee_ratio : Nat
  taker_fee_ratio : Nat
  memo : List Nat
deriving DecidableEq

/-- `IMPLEMENT_SERIALIZE` of `DexOperatorDetail`. -/
def DexOperatorDetail.serialize (o : DexOperatorDetail) : List Nat :=
  let s : List Nat := []
  let s := s ++ CRegID.serialize o.owner_regid
  let s := s ++ CRegID.serialize o.match_regid
  let s := s ++ serString o.name
  let s := s ++ serString o.portal_url
  let s := s ++ writeVarInt o.maker_fee_ratio
  let s := s ++ writeVarInt o.taker_fee_ratio
  let s := s ++ serString o.memo
  s

/-- Decoder of `DexOperatorDetail`, same field order. -/
def DexOperatorDetail.deserialize (l : List Nat) : Option (DexOperatorDetail × List Nat) :=
  match CRegID.deserialize l with
  | none => none
  | some (owner_regid, l) =>
  match CRegID.deserialize l with
  | none => none
  | some (match_regid, l) =>
  match parseString l with
  | none => none
  | some (name, l) =>
  match parseString l with
  | none => none
  | some (portal_url, l) =>
  match readVarInt l with
  | none => none
  | some (maker_fee_ratio, l) =>
  match readVarInt l with
  | none => none
  | some (taker_fee_ratio, l) =>
  match parseString l with
  | none => none
  | some (memo, l) =>
    some ({ owner_regid := owner_regid, match_regid := match_regid, name := name,
            portal_url := portal_url, maker_fee_ratio := maker_fee_ratio,
            taker_fee_ratio := taker_fee_ratio, memo := memo }, l)

theorem dexOperator_roundtrip (o : DexOperatorDetail) (rest : List Nat) :
    DexOperatorDetail.deserialize (DexOperatorDetail.serialize o ++ rest) = some (o, rest) := by
  simp only [DexOperatorDetail.serialize, DexOperatorDetail.deserialize,
    List.nil_append, List.append_assoc,
    parseString_serString, readVarInt_writeVarInt, regID_roundtrip]

/-! ## Transaction types (dextx.h)

The `TxType` byte values are inherited from the enclosing tx-type
enumeration, outside the files in scope.  Modelled from the spec: distinct
single-byte tags, one per transaction family; the claims depend only on their
distinctness and on the basic and extended settle variants sharing
`DEX_TRADE_SETTLE_TX`.  `CURRENT_VERSION` is the initial transaction
version. -/

def DEX_LIMIT_BUY_ORDER_TX : Nat := 84

def DEX_LIMIT_SELL_ORDER_TX : Nat := 85

def DEX_MARKET_BUY_ORDER_TX : Nat := 86

def DEX_MARKET_SELL_ORDER_TX : Nat := 87

def DEX_CANCEL_ORDER_TX : Nat := 88

def DEX_TRADE_SETTLE_TX : Nat := 89

def DEX_LIMIT_BUY_ORDER_EX_TX : Nat := 90

def DEX_LIMIT_SELL_ORDER_EX_TX : Nat := 91

def DEX_MARKET_BUY_ORDER_EX_TX : Nat := 92

def DEX_MARKET_SELL_ORDER_EX_TX : Nat := 93

def CURRENT_VERSION : Nat := 1

/-- `CDEXOrderBaseTx` with the `CBaseTx` fields flattened in: every
order-placing transaction (basic or extended) carries exactly this data; the
leaf classes differ only in their `nTxType` tag and their serialization and
hash member functions. -/
structure CDEXOrderBaseTx where
  nVersion : Nat
  nTxType : Nat
  valid_height : Nat
  txUid : CUserID
  fee_symbol : TokenSymbol
  llFees : Nat
  signature : List Nat
  mode : Nat
  dex_id : DexID
  operator_fee_ratio : Nat
  order_type : Nat
  order_side : Nat
  coin_symbol : TokenSymbol
  asset_symbol : TokenSymbol
  coin_amount : Nat
  asset_amount : Nat
  price : Nat
  memo : List Nat
  operator_signature_pair : Option CSignaturePair
deriving DecidableEq

/-- The in-class member initializer of `CDEXOrderBaseTx::memo`. -/
def CDEXOrderBaseTx.defaultMemo : List Nat := []

/-- `CDEXOrderBaseTx::SetOperatorRegid`: a null pointer leaves the optional
pair absent; otherwise the pair is created from the regid (with an empty
signature, as `CSignaturePair(regid)` does). -/
def CDEXOrderBaseTx.SetOperatorRegid (tx : CDEXOrderBaseTx)
    (pOperatorRegidIn : Option CRegID) : CDEXOrderBaseTx :=
  match pOperatorRegidIn with
  | none => tx
  | some r => { tx with operator_signature_pair := some ⟨r, []⟩ }

/-- `CDEXOrderBaseTx::GetOperatorRegid`: the regid of the optional operator
signature pair, when present. -/
def CDEXOrderBaseTx.GetOperatorRegid (tx : CDEXOrderBaseTx) : Option CRegID :=
  Option.map CSignaturePair.regid tx.operator_signature_pair

/-- The `CBaseTx(nTxTypeIn, txUidIn, validHeightIn, feeSymbol, fees)`
constructor with the `CDEXOrderBaseTx` member initializers: order fields at
their defaults, no signatures yet. -/
def CDEXOrderBaseTx.construct (nTxTypeIn : Nat) (txUidIn : CUserID)
    (validHeightIn : Nat) (feeSymbol : TokenSymbol) (fees : Nat) : CDEXOrderBaseTx :=
  { nVersion := CURRENT_VERSION
    nTxType := nTxTypeIn
    valid_height := validHeightIn
    txUid := txUidIn
    fee_symbol := feeSymbol
    llFees := fees
    signature := []
    mode := OrderOperatorMode.DEFAULT
    dex_id := 0
    operator_fee_ratio := 0
    order_type := ORDER_LIMIT_PRICE
    order_side := ORDER_BUY
    coin_symbol := []
    asset_symbol := []
    coin_amount := 0
    asset_amount := 0
    price := 0
    memo := CDEXOrderBaseTx.defaultMemo
    operator_signature_pair := none }

/-- `CDEXBuyLimitOrderBaseTx` full constructor (dextx.h lines 79-97). -/
def CDEXBuyLimitOrderBaseTx.construct (nTxTypeIn : Nat) (txUidIn : CUserID)
    (validHeightIn : Nat) (feeSymbol : TokenSymbol) (fees : Nat) (modeIn : Nat)
    (dexIdIn : DexID) (orderFeeRatioIn : Nat) (coinSymbol assetSymbol : TokenSymbol)
    (assetAmountIn priceIn : Nat) (memoIn : List Nat)
    (pOperatorRegidIn : Option CRegID) : CDEXOrderBaseTx :=
  let tx := CDEXOrderBaseTx.construct nTxTypeIn txUidIn validHeightIn feeSymbol fees
  let tx := { tx with
    mode := modeIn
    dex_id := dexIdIn
    operator_fee_ratio := orderFeeRatioIn
    order_type := ORDER_LIMIT_PRICE
    order_side := ORDER_BUY
    coin_symbol := coinSymbol
    asset_symbol := assetSymbol
    coin_amount := 0
    asset_amount := assetAmountIn
    price := priceIn
    memo := memoIn }
  tx.SetOperatorRegid pOperatorRegidIn

/-- `CDEXSellLimitOrderBaseTx` full constructor (dextx.h lines 211-230). -/
def CDEXSellLimitOrderBaseTx.construct (nTxTypeIn : Nat) (txUidIn : CUserID)
    (validHeightIn : Nat) (feeSymbol : TokenSymbol) (fees : Nat) (modeIn : Nat)
    (dexIdIn : DexID) (orderFeeRatioIn : Nat) (coinSymbol assetSymbol : TokenSymbol)
    (assetAmountIn priceIn : Nat) (memoIn : List Nat)
    (pOperatorRegidIn : Option CRegID) : CDEXOrderBaseTx :=
  let tx := CDEXOrderBaseTx.construct nTxTypeIn txUidIn validHeightIn feeSymbol fees
  let tx := { tx with
    mode := modeIn
    dex_id := dexIdIn
    operator_fee_ratio := orderFeeRatioIn
    order_type := ORDER_LIMIT_PRICE
    order_side := ORDER_SELL
    coin_symbol := coinSymbol
    asset_symbol := assetSymbol
    coin_amount := 0
    asset_amount := assetAmountIn
    price := priceIn
    memo := memoIn }
  tx.SetOperatorRegid pOperatorRegidIn

/-- `CDEXBuyMarketOrderBaseTx` full constructor (dextx.h lines 342-360). -/
def CDEXBuyMarketOrderBaseTx.construct (nTxTypeIn : Nat) (txUidIn : CUserID)
    (validHeightIn : Nat) (feeSymbol : TokenSymbol) (fees : Nat) (modeIn : Nat)
    (dexIdIn : DexID) (orderFeeRatioIn : Nat) (coinSymbol assetSymbol : TokenSymbol)
    (coinAmountIn : Nat) (memoIn : List Nat)
    (pOperatorRegidIn : Option CRegID) : CDEXOrderBaseTx :=
  let tx := CDEXOrderBaseTx.construct nTxTypeIn txUidIn validHeightIn feeSymbol fees
  let tx := { tx with
    mode := modeIn
    dex_id := dexIdIn
    operator_fee_ratio := orderFeeRatioIn
    order_type := ORDER_MARKET_PRICE
    order_side := ORDER_BUY
    coin_symbol := coinSymbol
    asset_symbol := assetSymbol
    coin_amount := coinAmountIn
    asset_amount := 0
    price := 0
    memo := memoIn }
  tx.SetOperatorRegid pOperatorRegidIn

/-- `CDEXSellMarketOrderBaseTx` full constructor (dextx.h lines 476-494). -/
def CDEXSellMarketOrderBaseTx.construct (nTxTypeIn : Nat) (txUidIn : CUserID)
    (validHeightIn : Nat) (feeSymbol : TokenSymbol) (fees : Nat) (modeIn : Nat)
    (dexIdIn : DexID) (orderFeeRatioIn : Nat) (coinSymbol assetSymbol : TokenSymbol)
    (assetAmountIn : Nat) (memoIn : List Nat)
    (pOperatorRegidIn : Option CRegID) : CDEXOrderBaseTx :=
  let tx := CDEXOrderBaseTx.construct nTxTypeIn txUidIn validHeightIn feeSymbol fees
  let tx := { tx with
    mode := modeIn
    dex_id := dexIdIn
    operator_fee_ratio := orderFeeRatioIn
    order_type := ORDER_MARKET_PRICE
    order_side := ORDER_SELL
    coin_symbol := coinSymbol
    asset_symbol := assetSymbol
    coin_amount := 0
    asset_amount := assetAmountIn
    price := 0
    memo := memoIn }
  tx.SetOperatorRegid pOperatorRegidIn

/-- `CDEXBuyLimitOrderTx` convenience constructor (dextx.h lines 111-116):
basic orders fix `DEFAULT` mode, the reserved DEX, zero operator fee ratio,
empty memo and no operator regid. -/
def CDEXBuyLimitOrderTx.construct (txUidIn : CUserID) (validHeightIn : Nat)
    (feeSymbol : TokenSymbol) (fees : Nat) (coinSymbol assetSymbol : TokenSymbol)
    (assetAmountIn priceIn : Nat) : CDEXOrderBaseTx :=
  CDEXBuyLimitOrderBaseTx.construct DEX_LIMIT_BUY_ORDER_TX txUidIn validHeightIn
    feeSymbol fees OrderOperatorMode.DEFAULT DEX_RESERVED_ID 0 coinSymbol
    assetSymbol assetAmountIn priceIn [] none

/-- `CDEXSellLimitOrderTx` convenience constructor (dextx.h lines 244-249). -/
def CDEXSellLimitOrderTx.construct (txUidIn : CUserID) (validHeightIn : Nat)
    (feeSymbol : TokenSymbol) (fees : Nat) (coinSymbol assetSymbol : TokenSymbol)
    (assetAmount priceIn : Nat) : CDEXOrderBaseTx :=
  CDEXSellLimitOrderBaseTx.construct DEX_LIMIT_SELL_ORDER_TX txUidIn validHeightIn
    feeSymbol fees OrderOperatorMode.DEFAULT DEX_RESERVED_ID 0 coinSymbol
    assetSymbol assetAmount priceIn [] none

/-- `CDEXBuyMarketOrderTx` convenience constructor (dextx.h lines 377-382). -/
def CDEXBuyMarketOrderTx.construct (txUidIn : CUserID) (validHeightIn : Nat)
    (feeSymbol : TokenSymbol) (fees : Nat) (coinSymbol assetSymbol : TokenSymbol)
    (coinAmountIn : Nat) : CDEXOrderBaseTx :=
  CDEXBuyMarketOrderBaseTx.construct DEX_MARKET_BUY_ORDER_TX txUidIn validHeightIn
    feeSymbol fees OrderOperatorMode.DEFAULT DEX_RESERVED_ID 0 coinSymbol
    assetSymbol coinAmountIn [] none

/-- `CDEXSellMarketOrderTx` convenience constructor (dextx.h lines 507-512). -/
def CDEXSellMarketOrderTx.construct (txUidIn : CUserID) (validHeightIn : Nat)
    (feeSymbol : TokenSymbol) (fees : Nat) (coinSymbol assetSymbol : TokenSymbol)
    (assetAmountIn : Nat) : CDEXOrderBaseTx :=
  CDEXSellMarketOrderBaseTx.construct DEX_MARKET_SELL_ORDER_TX txUidIn validHeightIn
    feeSymbol fees OrderOperatorMode.DEFAULT DEX_RESERVED_ID 0 coinSymbol
    assetSymbol assetAmountIn [] none

/-- `CDEXBuyMarketOrderExTx` convenience constructor (dextx.h lines 422-429).
The source forwards the inherited member `memo` - read before the base object
is constructed, hence holding the member's default (empty) value - where its
`memoIn` parameter was evidently intended; `memoIn` is therefore dropped. -/
def CDEXBuyMarketOrderExTx.construct (txUidIn : CUserID) (validHeightIn : Nat)
    (feeSymbol : TokenSymbol) (fees : Nat) (modeIn : Nat) (dexIdIn : DexID)
    (orderFeeRatioIn : Nat) (coinSymbol assetSymbol : TokenSymbol)
    (coinAmountIn : Nat) (memoIn : List Nat)
    (pOperatorRegidIn : Option CRegID) : CDEXOrderBaseTx :=
  CDEXBuyMarketOrderBaseTx.construct DEX_MARKET_BUY_ORDER_EX_TX txUidIn
    validHeightIn feeSymbol fees modeIn dexIdIn orderFeeRatioIn coinSymbol
    assetSymbol coinAmountIn CDEXOrderBaseTx.defaultMemo pOperatorRegidIn

/-! ## Signature hashes of the order transactions

Each `ComputeSignatureHash` below is the exact byte stream the member
function of the same name feeds into `CHashWriter`. -/

/-- `CDEXBuyLimitOrderTx::ComputeSignatureHash` (dextx.h lines 134-144). -/
def CDEXBuyLimitOrderTx.ComputeSignatureHash (tx : CDEXOrderBaseTx) : List Nat :=
  writeVarInt tx.nVersion ++ serByte tx.nTxType ++ writeVarInt tx.valid_height ++
  serCUserID tx.txUid ++ serString tx.fee_symbol ++ writeVarInt tx.llFees ++
  serString tx.coin_symbol ++ serString tx.asset_symbol ++
  writeVarInt tx.asset_amount ++ writeVarInt tx.price

/-- `CDEXSellLimitOrderTx::ComputeSignatureHash` (dextx.h lines 267-276). -/
def CDEXSellLimitOrderTx.ComputeSignatureHash (tx : CDEXOrderBaseTx) : List Nat :=
  writeVarInt tx.nVersion ++ serByte tx.nTxType ++ writeVarInt tx.valid_height ++
  serCUserID tx.txUid ++ serString tx.fee_symbol ++ writeVarInt tx.llFees ++
  serString tx.coin_symbol ++ serString tx.asset_symbol ++
  writeVarInt tx.asset_amount ++ writeVarInt tx.price

/-- `CDEXBuyLimitOrderExTx::ComputeSignatureHash` (dextx.h lines 186-197):
`VARINT((uint8_t&)mode)` hashes the mode byte through the varint encoder. -/
def CDEXBuyLimitOrderExTx.ComputeSignatureHash (tx : CDEXOrderBaseTx) : List Nat :=
  writeVarInt tx.nVersion ++ serByte tx.nTxType ++ writeVarInt tx.valid_height ++
  serCUserID tx.txUid ++ serString tx.fee_symbol ++ writeVarInt tx.llFees ++
  writeVarInt (tx.mode % 256) ++ writeVarInt tx.dex_id ++
  writeVarInt tx.operator_fee_ratio ++ serString tx.coin_symbol ++
  serString tx.asset_symbol ++ writeVarInt tx.asset_amount ++
  writeVarInt tx.price ++ serString tx.memo ++
  serOptionCRegID tx.GetOperatorRegid

/-- `CDEXSellLimitOrderExTx::ComputeSignatureHash` (dextx.h lines 318-329). -/
def CDEXSellLimitOrderExTx.ComputeSignatureHash (tx : CDEXOrderBaseTx) : List Nat :=
  writeVarInt tx.nVersion ++ serByte tx.nTxType ++ writeVarInt tx.valid_height ++
  serCUserID tx.txUid ++ serString tx.fee_symbol ++ writeVarInt tx.llFees ++
  writeVarInt (tx.mode % 256) ++ writeVarInt tx.dex_id ++
  writeVarInt tx.operator_fee_ratio ++ serString tx.coin_symbol ++
  serString tx.asset_symbol ++ writeVarInt tx.asset_amount ++
  writeVarInt tx.price ++ serString tx.memo ++
  serOptionCRegID tx.GetOperatorRegid

/-- `CDEXBuyMarketOrderExTx::ComputeSignatureHash` (dextx.h lines 451-462). -/
def CDEXBuyMarketOrderExTx.ComputeSignatureHash (tx : CDEXOrderBaseTx) : List Nat :=
  writeVarInt tx.nVersion ++ serByte tx.nTxType ++ writeVarInt tx.valid_height ++
  serCUserID tx.txUid ++ serString tx.fee_symbol ++ writeVarInt tx.llFees ++
  writeVarInt (tx.mode % 256) ++ writeVarInt tx.dex_id ++
  writeVarInt tx.operator_fee_ratio ++ serString tx.coin_symbol ++
  serString tx.asset_symbol ++ writeVarInt tx.coin_amount ++
  serString tx.memo ++ serOptionCRegID tx.GetOperatorRegid

/-- `CDEXSellMarketOrderExTx::ComputeSignatureHash` (dextx.h lines 579-590). -/
def CDEXSellMarketOrderExTx.ComputeSignatureHash (tx : CDEXOrderBaseTx) : List Nat :=
  writeVarInt tx.nVersion ++ serByte tx.nTxType ++ writeVarInt tx.valid_height ++
  serCUserID tx.txUid ++ serString tx.fee_symbol ++ writeVarInt tx.llFees ++
  writeVarInt (tx.mode % 256) ++ writeVarInt tx.dex_id ++
  writeVarInt tx.operator_fee_ratio ++ serString tx.coin_symbol ++
  serString tx.asset_symbol ++ writeVarInt tx.asset_amount ++
  serString tx.memo ++ serOptionCRegID tx.GetOperatorRegid

/-! ## Settle transactions (dextx.h) -/

/-- Wire form of `vector<DEXDealItem>`: varint count, then the elements. -/
def serVecDealItem (items : List DEXDealItem) : List Nat :=
  writeVarInt items.length ++ (items.map DEXDealItem.serialize).flatten

/-- `CDEXSettleBaseTx` with the `CBaseTx` fields flattened in: the shared
data of the basic and extended settle transactions. -/
structure CDEXSettleBaseTx where
  nVersion : Nat
  nTxType : Nat
  valid_height : Nat
  txUid : CUserID
  fee_symbol : TokenSymbol
  llFees : Nat
  signature : List Nat
  dex_id : DexID
  dealItems : List DEXDealItem
  memo : List Nat
deriving DecidableEq

/-- `CDEXSettleBaseTx` full constructor (dextx.h lines 669-673). -/
def CDEXSettleBaseTx.construct (nTxTypeIn : Nat) (txUidIn : CUserID)
    (validHeightIn : Nat) (feeSymbol : TokenSymbol) (fees : Nat) (dexIdIn : DexID)
    (dealItemsIn : List DEXDealItem) (memoIn : List Nat) : CDEXSettleBaseTx :=
  { nVersion := CURRENT_VERSION
    nTxType := nTxTypeIn
    valid_height := validHeightIn
    txUid := txUidIn
    fee_symbol := feeSymbol
    llFees := fees
    signature := []
    dex_id := dexIdIn
    dealItems := dealItemsIn
    memo := memoIn }

/-- `CDEXSettleTx` convenience constructor (dextx.h lines 710-713): tagged
`DEX_TRADE_SETTLE_TX`, reserved DEX, empty memo. -/
def CDEXSettleTx.construct (txUidIn : CUserID) (validHeightIn : Nat)
    (feeSymbol : TokenSymbol) (fees : Nat)
    (dealItemsIn : List DEXDealItem) : CDEXSettleBaseTx :=
  CDEXSettleBaseTx.construct DEX_TRADE_SETTLE_TX txUidIn validHeightIn feeSymbol
    fees DEX_RESERVED_ID dealItemsIn []

/-- `CDEXSettleExTx` convenience constructor (dextx.h lines 750-754): tagged
`DEX_TRADE_SETTLE_TX` as well. -/
def CDEXSettleExTx.construct (txUidIn : CUserID) (validHeightIn : Nat)
    (feeSymbol : TokenSymbol) (fees : Nat) (dexIdIn : DexID)
    (dealItemsIn : List DEXDealItem) (memoIn : List Nat) : CDEXSettleBaseTx :=
  CDEXSettleBaseTx.construct DEX_TRADE_SETTLE_TX txUidIn validHeightIn feeSymbol
    fees dexIdIn dealItemsIn memoIn

/-- `IMPLEMENT_SERIALIZE` of `CDEXSettleTx` (dextx.h lines 715-726). -/
def CDEXSettleTx.serialize (tx : CDEXSettleBaseTx) : List Nat :=
  let s : List Nat := []
  let s := s ++ writeVarInt tx.nVersion
  let s := s ++ writeVarInt tx.valid_height
  let s := s ++ serCUserID tx.txUid
  let s := s ++ serString tx.fee_symbol
  let s := s ++ writeVarInt tx.llFees
  let s := s ++ serVecDealItem tx.dealItems
  let s := s ++ serString tx.signature
  s

/-- `IMPLEMENT_SERIALIZE` of `CDEXSettleExTx` (dextx.h lines 756-769):
additionally puts `dex_id` and `memo` on the wire. -/
def CDEXSettleExTx.serialize (tx : CDEXSettleBaseTx) : List Nat :=
  let s : List Nat := []
  let s := s ++ writeVarInt tx.nVersion
  let s := s ++ writeVarInt tx.valid_height
  let s := s ++ serCUserID tx.txUid
  let s := s ++ serString tx.fee_symbol
  let s := s ++ writeVarInt tx.llFees
  let s := s ++ writeVarInt tx.dex_id
  let s := s ++ serVecDealItem tx.dealItems
  let s := s ++ serString tx.memo
  let s := s ++ serString tx.signature
  s

/-- `CDEXSettleTx::ComputeSignatureHash` (dextx.h lines 728-737). -/
def CDEXSettleTx.ComputeSignatureHash (tx : CDEXSettleBaseTx) : List Nat :=
  writeVarInt tx.nVersion ++ serByte tx.nTxType ++ writeVarInt tx.valid_height ++
  serCUserID tx.txUid ++ serString tx.fee_symbol ++ writeVarInt tx.llFees ++
  serVecDealItem tx.dealItems

/-- `CDEXSettleExTx::ComputeSignatureHash` (dextx.h lines 771-780): hashes
only the common head and `dealItems`; neither `dex_id` nor `memo` enters the
stream. -/
def CDEXSettleExTx.ComputeSignatureHash (tx : CDEXSettleBaseTx) : List Nat :=
  writeVarInt tx.nVersion ++ serByte tx.nTxType ++ writeVarInt tx.valid_height ++
  serCUserID tx.txUid ++ serString tx.fee_symbol ++ writeVarInt tx.llFees ++
  serVecDealItem tx.dealItems

/-! ## Claims -/

/-- Claim C2: the serialization of `CDEXOrderDetail` emits its fields in
exactly the order mode, dex_id, operator_fee_ratio, generate_type,
order_type, order_side, coin_symbol, asset_symbol, coin_amount,
asset_amount, price, tx_cord, user_regid, total_deal_coin_amount,
total_deal_asset_amount, and then tx_cord a second time, for every value. -/
theorem orderDetail_wire_field_order (d : CDEXOrderDetail) :
    d.serialize =
      serByte d.mode ++ writeVarInt d.dex_id ++ writeVarInt d.operator_fee_ratio ++
      serByte d.generate_type ++ serByte d.order_type ++ serByte d.order_side ++
      serString d.coin_symbol ++ serString d.asset_symbol ++
      writeVarInt d.coin_amount ++ writeVarInt d.asset_amount ++
      writeVarInt d.price ++ CTxCord.serialize d.tx_cord ++
      CRegID.serialize d.user_regid ++ writeVarInt d.total_deal_coin_amount ++
      writeVarInt d.total_deal_asset_amount ++ CTxCord.serialize d.tx_cord := by
  simp [CDEXOrderDetail.serialize]

/-- Claim C5: for every basic limit buy and basic limit sell order
transaction, the signature-hash preimage is exactly the common head
version, tx_type, valid_height, tx_uid, fee_symbol, fees followed by
coin_symbol, asset_symbol, asset_amount, price, with the numeric fields
varint-encoded and the tx type a single byte, and nothing else. -/
theorem basic_limit_order_hash_layout (tx : CDEXOrderBaseTx) :
    CDEXBuyLimitOrderTx.ComputeSignatureHash tx =
      writeVarInt tx.nVersion ++ [tx.nTxType % 256] ++ writeVarInt tx.valid_height ++
      serCUserID tx.txUid ++ serString tx.fee_symbol ++ writeVarInt tx.llFees ++
      serString tx.coin_symbol ++ serString tx.asset_symbol ++
      writeVarInt tx.asset_amount ++ writeVarInt tx.price
    ∧ CDEXSellLimitOrderTx.ComputeSignatureHash tx =
      writeVarInt tx.nVersion ++ [tx.nTxType % 256] ++ writeVarInt tx.valid_height ++
      serCUserID tx.txUid ++ serString tx.fee_symbol ++ writeVarInt tx.llFees ++
      serString tx.coin_symbol ++ serString tx.asset_symbol ++
      writeVarInt tx.asset_amount ++ writeVarInt tx.price := by
  constructor <;>
    simp [CDEXBuyLimitOrderTx.ComputeSignatureHash,
      CDEXSellLimitOrderTx.ComputeSignatureHash, serByte]

/-- Claim C6: a buy-market base constructor always produces
`asset_amount = 0` and `price = 0` with `coin_amount` taken from its
argument, and a sell-market base constructor always produces
`coin_amount = 0` and `price = 0` with `asset_amount` taken from its
argument, for all argument values. -/
theorem market_order_constructor_shape (nTxTypeIn : Nat) (txUidIn : CUserID)
    (validHeightIn : Nat) (feeSymbol : TokenSymbol) (fees : Nat) (modeIn : Nat)
    (dexIdIn : DexID) (orderFeeRatioIn : Nat) (coinSymbol assetSymbol : TokenSymbol)
    (amountIn : Nat) (memoIn : List Nat) (pOperatorRegidIn : Option CRegID) :
    ((CDEXBuyMarketOrderBaseTx.construct nTxTypeIn txUidIn validHeightIn feeSymbol
        fees modeIn dexIdIn orderFeeRatioIn coinSymbol assetSymbol amountIn memoIn
        pOperatorRegidIn).asset_amount = 0 ∧
     (CDEXBuyMarketOrderBaseTx.construct nTxTypeIn txUidIn validHeightIn feeSymbol
        fees modeIn dexIdIn orderFeeRatioIn coinSymbol assetSymbol amountIn memoIn
        pOperatorRegidIn).price = 0 ∧
     (CDEXBuyMarketOrderBaseTx.construct nTxTypeIn txUidIn validHeightIn feeSymbol
        fees modeIn dexIdIn orderFeeRatioIn coinSymbol assetSymbol amountIn memoIn
        pOperatorRegidIn).coin_amount = amountIn)
    ∧ ((CDEXSellMarketOrderBaseTx.construct nTxTypeIn txUidIn validHeightIn feeSymbol
        fees modeIn dexIdIn orderFeeRatioIn coinSymbol assetSymbol amountIn memoIn
        pOperatorRegidIn).coin_amount = 0 ∧
     (CDEXSellMarketOrderBaseTx.construct nTxTypeIn txUidIn validHeightIn feeSymbol
        fees modeIn dexIdIn orderFeeRatioIn coinSymbol assetSymbol amountIn memoIn
        pOperatorRegidIn).price = 0 ∧
     (CDEXSellMarketOrderBaseTx.construct nTxTypeIn txUidIn validHeightIn feeSymbol
        fees modeIn dexIdIn orderFeeRatioIn coinSymbol assetSymbol amountIn memoIn
        pOperatorRegidIn).asset_amount = amountIn) := by
  cases pOperatorRegidIn <;>
    simp [CDEXBuyMarketOrderBaseTx.construct, CDEXSellMarketOrderBaseTx.construct,
      CDEXOrderBaseTx.construct, CDEXOrderBaseTx.SetOperatorRegid]

/-- Claim C7: every transaction built by a basic (non-extended) order
constructor has `mode = DEFAULT`, `operator_fee_ratio = 0`,
`dex_id = DEX_RESERVED_ID`, an empty memo and an absent
`operator_signature_pair`, for all argument values. -/
theorem basic_order_constructor_defaults (txUidIn : CUserID) (validHeightIn : Nat)
    (feeSymbol : TokenSymbol) (fees : Nat) (coinSymbol assetSymbol : TokenSymbol)
    (amountIn priceIn : Nat) :
    ((CDEXBuyLimitOrderTx.construct txUidIn validHeightIn feeSymbol fees coinSymbol
        assetSymbol amountIn priceIn).mode = OrderOperatorMode.DEFAULT ∧
     (CDEXBuyLimitOrderTx.construct txUidIn validHeightIn feeSymbol fees coinSymbol
        assetSymbol amountIn priceIn).operator_fee_ratio = 0 ∧
     (CDEXBuyLimitOrderTx.construct txUidIn validHeightIn feeSymbol fees coinSymbol
        assetSymbol amountIn priceIn).dex_id = DEX_RESERVED_ID ∧
     (CDEXBuyLimitOrderTx.construct txUidIn validHeightIn feeSymbol fees coinSymbol
        assetSymbol amountIn priceIn).memo = [] ∧
     (CDEXBuyLimitOrderTx.construct txUidIn validHeightIn feeSymbol fees coinSymbol
        assetSymbol amountIn priceIn).operator_signature_pair = none)
    ∧ ((CDEXSellLimitOrderTx.construct txUidIn validHeightIn feeSymbol fees coinSymbol
        assetSymbol amountIn priceIn).mode = OrderOperatorMode.DEFAULT ∧
     (CDEXSellLimitOrderTx.construct txUidIn validHeightIn feeSymbol fees coinSymbol
        assetSymbol amountIn priceIn).operator_fee_ratio = 0 ∧
     (CDEXSellLimitOrderTx.construct txUidIn validHeightIn feeSymbol fees coinSymbol
        assetSymbol amountIn priceIn).dex_id = DEX_RESERVED_ID ∧
     (CDEXSellLimitOrderTx.construct txUidIn validHeightIn feeSymbol fees coinSymbol
        assetSymbol amountIn priceIn).memo = [] ∧
     (CDEXSellLimitOrderTx.construct txUidIn validHeightIn feeSymbol fees coinSymbol
        assetSymbol amountIn priceIn).operator_signature_pair = none)
    ∧ ((CDEXBuyMarketOrderTx.construct txUidIn validHeightIn feeSymbol fees coinSymbol
        assetSymbol amountIn).mode = OrderOperatorMode.DEFAULT ∧
     (CDEXBuyMarketOrderTx.construct txUidIn validHeightIn feeSymbol fees coinSymbol
        assetSymbol amountIn).operator_fee_ratio = 0 ∧
     (CDEXBuyMarketOrderTx.construct txUidIn validHeightIn feeSymbol fees coinSymbol
        assetSymbol amountIn).dex_id = DEX_RESERVED_ID ∧
     (CDEXBuyMarketOrderTx.construct txUidIn validHeightIn feeSymbol fees coinSymbol
        assetSymbol amountIn).memo = [] ∧
     (CDEXBuyMarketOrderTx.construct txUidIn validHeightIn feeSymbol fees coinSymbol
        assetSymbol amountIn).operator_signature_pair = none)
    ∧ ((CDEXSellMarketOrderTx.construct txUidIn validHeightIn feeSymbol fees coinSymbol
        assetSymbol amountIn).mode = OrderOperatorMode.DEFAULT ∧
     (CDEXSellMarketOrderTx.construct txUidIn validHeightIn feeSymbol fees coinSymbol
        assetSymbol amountIn).operator_fee_ratio = 0 ∧
     (CDEXSellMarketOrderTx.construct txUidIn validHeightIn feeSymbol fees coinSymbol
        assetSymbol amountIn).dex_id = DEX_RESERVED_ID ∧
     (CDEXSellMarketOrderTx.construct txUidIn validHeightIn feeSymbol fees coinSymbol
        assetSymbol amountIn).memo = [] ∧
     (CDEXSellMarketOrderTx.construct txUidIn validHeightIn feeSymbol fees coinSymbol
        assetSymbol amountIn).operator_signature_pair = none) := by
  simp [CDEXBuyLimitOrderTx.construct, CDEXSellLimitOrderTx.construct,
    CDEXBuyMarketOrderTx.construct, CDEXSellMarketOrderTx.construct,
    CDEXBuyLimitOrderBaseTx.construct, CDEXSellLimitOrderBaseTx.construct,
    CDEXBuyMarketOrderBaseTx.construct, CDEXSellMarketOrderBaseTx.construct,
    CDEXOrderBaseTx.construct, CDEXOrderBaseTx.SetOperatorRegid,
    CDEXOrderBaseTx.defaultMemo]

/-- Claim C10: `CDEXOrderDetail::SetEmpty` leaves `mode`, `dex_id` and
`operator_fee_ratio` unchanged while resetting every other field, so the
result reports `IsEmpty` yet differs from a default-constructed detail
whenever one of the three preserved fields is non-default. -/
theorem orderDetail_setEmpty_frame (d : CDEXOrderDetail) :
    ((d.SetEmpty).mode = d.mode ∧ (d.SetEmpty).dex_id = d.dex_id ∧
     (d.SetEmpty).operator_fee_ratio = d.operator_fee_ratio ∧
     (d.SetEmpty).generate_type = EMPTY_ORDER ∧
     (d.SetEmpty).order_type = ORDER_LIMIT_PRICE ∧
     (d.SetEmpty).order_side = ORDER_BUY ∧
     (d.SetEmpty).coin_symbol = [] ∧ (d.SetEmpty).asset_symbol = [] ∧
     (d.SetEmpty).coin_amount = 0 ∧ (d.SetEmpty).asset_amount = 0 ∧
     (d.SetEmpty).price = 0 ∧ (d.SetEmpty).tx_cord = ⟨0, 0⟩ ∧
     (d.SetEmpty).user_regid = ⟨0, 0⟩ ∧
     (d.SetEmpty).total_deal_coin_amount = 0 ∧
     (d.SetEmpty).total_deal_asset_amount = 0 ∧
     (d.SetEmpty).IsEmpty = true)
    ∧ ((d.mode ≠ OrderOperatorMode.DEFAULT ∨ d.dex_id ≠ 0 ∨
        d.operator_fee_ratio ≠ 0) →
        d.SetEmpty ≠ CDEXOrderDetail.defaultValue) := by
  constructor
  · simp [CDEXOrderDetail.SetEmpty, CDEXOrderDetail.IsEmpty, CTxCord.SetEmpty,
      CRegID.SetEmpty, EMPTY_ORDER]
  · intro h heq
    have hm : d.mode = OrderOperatorMode.DEFAULT := by
      have := congrArg CDEXOrderDetail.mode heq
      simpa [CDEXOrderDetail.SetEmpty, CDEXOrderDetail.defaultValue,
        OrderOperatorMode.DEFAULT] using this
    have hx : d.dex_id = 0 := by
      have := congrArg CDEXOrderDetail.dex_id heq
      simpa [CDEXOrderDetail.SetEmpty, CDEXOrderDetail.defaultValue] using this
    have hr : d.operator_fee_ratio = 0 := by
      have := congrArg CDEXOrderDetail.operator_fee_ratio heq
      simpa [CDEXOrderDetail.SetEmpty, CDEXOrderDetail.defaultValue] using this
    rcases h with h | h | h
    · exact h hm
    · exact h hx
    · exact h hr

/-- Claim C10 witness: a detail with `dex_id = 5` stays different from the
default-constructed detail after `SetEmpty`. -/
theorem orderDetail_setEmpty_frame_witness :
    (({ CDEXOrderDetail.defaultValue with dex_id := 5 } : CDEXOrderDetail).mode ≠
        OrderOperatorMode.DEFAULT ∨
     ({ CDEXOrderDetail.defaultValue with dex_id := 5 } : CDEXOrderDetail).dex_id ≠ 0 ∨
     ({ CDEXOrderDetail.defaultValue with dex_id := 5 } : CDEXOrderDetail).operator_fee_ratio ≠ 0)
    ∧ ({ CDEXOrderDetail.defaultValue with dex_id := 5 } : CDEXOrderDetail).SetEmpty ≠
        CDEXOrderDetail.defaultValue :=
  ⟨Or.inr (Or.inl (by decide)),
   (orderDetail_setEmpty_frame { CDEXOrderDetail.defaultValue with dex_id := 5 }).2
     (Or.inr (Or.inl (by decide)))⟩

/-- Claim C3: the `CDEXBuyMarketOrderExTx` convenience constructor forwards
the inherited member `memo` instead of its `memoIn` parameter, so the
constructed transaction's memo is the default (empty) member value and never
equals a non-empty `memoIn` argument. -/
theorem buyMarketExTx_constructor_drops_memoIn (txUidIn : CUserID)
    (validHeightIn : Nat) (feeSymbol : TokenSymbol) (fees : Nat) (modeIn : Nat)
    (dexIdIn : DexID) (orderFeeRatioIn : Nat) (coinSymbol assetSymbol : TokenSymbol)
    (coinAmountIn : Nat) (memoIn : List Nat) (pOperatorRegidIn : Option CRegID) :
    (CDEXBuyMarketOrderExTx.construct txUidIn validHeightIn feeSymbol fees modeIn
        dexIdIn orderFeeRatioIn coinSymbol assetSymbol coinAmountIn memoIn
        pOperatorRegidIn).memo = []
    ∧ (memoIn ≠ [] →
       (CDEXBuyMarketOrderExTx.construct txUidIn validHeightIn feeSymbol fees modeIn
          dexIdIn orderFeeRatioIn coinSymbol assetSymbol coinAmountIn memoIn
          pOperatorRegidIn).memo ≠ memoIn) := by
  have hmemo : (CDEXBuyMarketOrderExTx.construct txUidIn validHeightIn feeSymbol fees
      modeIn dexIdIn orderFeeRatioIn coinSymbol assetSymbol coinAmountIn memoIn
      pOperatorRegidIn).memo = [] := by
    cases pOperatorRegidIn <;>
      simp [CDEXBuyMarketOrderExTx.construct, CDEXBuyMarketOrderBaseTx.construct,
        CDEXOrderBaseTx.construct, CDEXOrderBaseTx.SetOperatorRegid,
        CDEXOrderBaseTx.defaultMemo]
  exact ⟨hmemo, fun hne heq => hne (by rw [hmemo] at heq; exact heq.symm)⟩

/-- Claim C3 witness: a concrete non-empty `memoIn` does not reach the
constructed transaction. -/
theorem buyMarketExTx_constructor_drops_memoIn_witness :
    ([1] ≠ ([] : List Nat))
    ∧ (CDEXBuyMarketOrderExTx.construct [] 0 [] 0 0 0 0 [] [] 0 [1] none).memo ≠ [1] :=
  ⟨by decide,
   (buyMarketExTx_constructor_drops_memoIn [] 0 [] 0 0 0 0 [] [] 0 [1] none).2
     (by decide)⟩

/-- Claim C1: `CDEXSettleExTx::ComputeSignatureHash` covers only the common
head and `deal_items`: changing `dex_id` and/or `memo` never changes the
hash, although both fields sit on the wire (a changed `dex_id`, or a changed
`memo` under the same `dex_id`, changes the serialization). -/
theorem settleEx_hash_ignores_dexId_memo (tx : CDEXSettleBaseTx) (dexId2 : DexID)
    (memo2 : List Nat) :
    CDEXSettleExTx.ComputeSignatureHash { tx with dex_id := dexId2, memo := memo2 } =
      CDEXSettleExTx.ComputeSignatureHash tx
    ∧ (dexId2 ≠ tx.dex_id →
       CDEXSettleExTx.serialize { tx with dex_id := dexId2, memo := memo2 } ≠
         CDEXSettleExTx.serialize tx)
    ∧ (dexId2 = tx.dex_id → memo2 ≠ tx.memo →
       CDEXSettleExTx.serialize { tx with dex_id := dexId2, memo := memo2 } ≠
         CDEXSettleExTx.serialize tx) := by
  refine ⟨by simp [CDEXSettleExTx.ComputeSignatureHash], ?_, ?_⟩
  · intro hne heq
    simp only [CDEXSettleExTx.serialize, List.nil_append, List.append_assoc] at heq
    have h1 := List.append_cancel_left heq
    have h2 := List.append_cancel_left h1
    have h3 := List.append_cancel_left h2
    have h4 := List.append_cancel_left h3
    have h5 := List.append_cancel_left h4
    exact hne (writeVarInt_append_inj h5).1
  · intro hd hm heq
    simp only [CDEXSettleExTx.serialize, List.nil_append, List.append_assoc] at heq
    rw [hd] at heq
    have h1 := List.append_cancel_left heq
    have h2 := List.append_cancel_left h1
    have h3 := List.append_cancel_left h2
    have h4 := List.append_cancel_left h3
    have h5 := List.append_cancel_left h4
    have h6 := List.append_cancel_left h5
    have h7 := List.append_cancel_left h6
    exact hm (serString_append_inj h7).1

/-- Claim C1 witness: two extended settle transactions agreeing on the common
head and the deal items but differing in `dex_id` and `memo` hash alike,
while their wire serializations differ. -/
theorem settleEx_hash_ignores_dexId_memo_witness :
    ((1 : DexID) ≠ (CDEXSettleExTx.construct [] 0 [] 0 0 [] []).dex_id)
    ∧ CDEXSettleExTx.ComputeSignatureHash
        { CDEXSettleExTx.construct [] 0 [] 0 0 [] [] with dex_id := 1, memo := [2] } =
      CDEXSettleExTx.ComputeSignatureHash (CDEXSettleExTx.construct [] 0 [] 0 0 [] [])
    ∧ CDEXSettleExTx.serialize
        { CDEXSettleExTx.construct [] 0 [] 0 0 [] [] with dex_id := 1, memo := [2] } ≠
      CDEXSettleExTx.serialize (CDEXSettleExTx.construct [] 0 [] 0 0 [] []) :=
  ⟨by decide,
   (settleEx_hash_ignores_dexId_memo (CDEXSettleExTx.construct [] 0 [] 0 0 [] []) 1 [2]).1,
   (settleEx_hash_ignores_dexId_memo (CDEXSettleExTx.construct [] 0 [] 0 0 [] []) 1 [2]).2.1
     (by decide)⟩

/-- Claim C9: the basic and the extended settle constructors both tag their
transaction `DEX_TRADE_SETTLE_TX`, and on any pair agreeing on version,
valid height, uid, fee symbol, fees and deal items the two
`ComputeSignatureHash` preimages coincide, even though the two wire forms
differ (witnessed at the empty instance). -/
theorem settle_basic_and_ex_share_tag_and_hash (txUidIn : CUserID)
    (validHeightIn : Nat) (feeSymbol : TokenSymbol) (fees : Nat)
    (dealItemsIn : List DEXDealItem) (dexIdIn : DexID) (memoIn : List Nat) :
    (CDEXSettleTx.construct txUidIn validHeightIn feeSymbol fees
        dealItemsIn).nTxType = DEX_TRADE_SETTLE_TX
    ∧ (CDEXSettleExTx.construct txUidIn validHeightIn feeSymbol fees dexIdIn
        dealItemsIn memoIn).nTxType = DEX_TRADE_SETTLE_TX
    ∧ CDEXSettleTx.ComputeSignatureHash
        (CDEXSettleTx.construct txUidIn validHeightIn feeSymbol fees dealItemsIn) =
      CDEXSettleExTx.ComputeSignatureHash
        (CDEXSettleExTx.construct txUidIn validHeightIn feeSymbol fees dexIdIn
          dealItemsIn memoIn)
    ∧ CDEXSettleTx.serialize (CDEXSettleTx.construct [] 0 [] 0 []) ≠
      CDEXSettleExTx.serialize (CDEXSettleExTx.construct [] 0 [] 0 0 [] []) := by
  refine ⟨rfl, rfl, ?_, by decide⟩
  simp [CDEXSettleTx.ComputeSignatureHash, CDEXSettleExTx.ComputeSignatureHash,
    CDEXSettleTx.construct, CDEXSettleExTx.construct, CDEXSettleBaseTx.construct]

/-- Claim C4: in every extended order transaction the hash preimage excludes
the user signature and the signature held in `operator_signature_pair`
(replacing the signatures while keeping the operator regid never changes the
hash), yet includes the operator regid through `GetOperatorRegid` (replacing
the pair by one with a different regid always changes the hash). -/
theorem exOrder_hash_signature_free_operator_regid_bound (tx : CDEXOrderBaseTx)
    (sig2 : List Nat) (osp2 : Option CSignaturePair) :
    (Option.map CSignaturePair.regid osp2 = tx.GetOperatorRegid →
      (CDEXBuyLimitOrderExTx.ComputeSignatureHash
          { tx with signature := sig2, operator_signature_pair := osp2 } =
        CDEXBuyLimitOrderExTx.ComputeSignatureHash tx ∧
       CDEXSellLimitOrderExTx.ComputeSignatureHash
          { tx with signature := sig2, operator_signature_pair := osp2 } =
        CDEXSellLimitOrderExTx.ComputeSignatureHash tx ∧
       CDEXBuyMarketOrderExTx.ComputeSignatureHash
          { tx with signature := sig2, operator_signature_pair := osp2 } =
        CDEXBuyMarketOrderExTx.ComputeSignatureHash tx ∧
       CDEXSellMarketOrderExTx.ComputeSignatureHash
          { tx with signature := sig2, operator_signature_pair := osp2 } =
        CDEXSellMarketOrderExTx.ComputeSignatureHash tx))
    ∧ (Option.map CSignaturePair.regid osp2 ≠ tx.GetOperatorRegid →
      (CDEXBuyLimitOrderExTx.ComputeSignatureHash
          { tx with signature := sig2, operator_signature_pair := osp2 } ≠
        CDEXBuyLimitOrderExTx.ComputeSignatureHash tx ∧
       CDEXSellLimitOrderExTx.ComputeSignatureHash
          { tx with signature := sig2, operator_signature_pair := osp2 } ≠
        CDEXSellLimitOrderExTx.ComputeSignatureHash tx ∧
       CDEXBuyMarketOrderExTx.ComputeSignatureHash
          { tx with signature := sig2, operator_signature_pair := osp2 } ≠
        CDEXBuyMarketOrderExTx.ComputeSignatureHash tx ∧
       CDEXSellMarketOrderExTx.ComputeSignatureHash
          { tx with signature := sig2, operator_signature_pair := osp2 } ≠
        CDEXSellMarketOrderExTx.ComputeSignatureHash tx)) := by
  constructor
  · intro h
    simp only [CDEXOrderBaseTx.GetOperatorRegid] at h
    refine ⟨?_, ?_, ?_, ?_⟩ <;>
      simp [CDEXBuyLimitOrderExTx.ComputeSignatureHash,
        CDEXSellLimitOrderExTx.ComputeSignatureHash,
        CDEXBuyMarketOrderExTx.ComputeSignatureHash,
        CDEXSellMarketOrderExTx.ComputeSignatureHash,
        CDEXOrderBaseTx.GetOperatorRegid, h]
  · intro h
    have key : ∀ heq : serOptionCRegID (CDEXOrderBaseTx.GetOperatorRegid
        { tx with signature := sig2, operator_signature_pair := osp2 }) =
        serOptionCRegID tx.GetOperatorRegid, False := by
      intro heq
      apply h
      have := serOptionCRegID_inj heq
      simpa [CDEXOrderBaseTx.GetOperatorRegid] using this
    refine ⟨?_, ?_, ?_, ?_⟩
    · intro heq
      apply key
      unfold CDEXBuyLimitOrderExTx.ComputeSignatureHash at heq
      simp only [← List.append_assoc] at heq
      exact List.append_cancel_left heq
    · intro heq
      apply key
      unfold CDEXSellLimitOrderExTx.ComputeSignatureHash at heq
      simp only [← List.append_assoc] at heq
      exact List.append_cancel_left heq
    · intro heq
      apply key
      unfold CDEXBuyMarketOrderExTx.ComputeSignatureHash at heq
      simp only [← List.append_assoc] at heq
      exact List.append_cancel_left heq
    · intro heq
      apply key
      unfold CDEXSellMarketOrderExTx.ComputeSignatureHash at heq
      simp only [← List.append_assoc] at heq
      exact List.append_cancel_left heq

/-- Claim C4 witness: replacing the operator pair's signature bytes keeps the
hash of a concrete extended buy-limit transaction; replacing its regid
changes it. -/
theorem exOrder_hash_signature_free_operator_regid_bound_witness :
    (Option.map CSignaturePair.regid (some ⟨⟨1, 2⟩, [9]⟩) =
      ((CDEXOrderBaseTx.construct DEX_LIMIT_BUY_ORDER_EX_TX [] 0 [] 0).SetOperatorRegid
        (some ⟨1, 2⟩)).GetOperatorRegid)
    ∧ CDEXBuyLimitOrderExTx.ComputeSignatureHash
        { (CDEXOrderBaseTx.construct DEX_LIMIT_BUY_ORDER_EX_TX [] 0 [] 0).SetOperatorRegid
            (some ⟨1, 2⟩) with
          signature := [7], operator_signature_pair := some ⟨⟨1, 2⟩, [9]⟩ } =
      CDEXBuyLimitOrderExTx.ComputeSignatureHash
        ((CDEXOrderBaseTx.construct DEX_LIMIT_BUY_ORDER_EX_TX [] 0 [] 0).SetOperatorRegid
          (some ⟨1, 2⟩))
    ∧ (Option.map CSignaturePair.regid (some ⟨⟨3, 4⟩, []⟩) ≠
      ((CDEXOrderBaseTx.construct DEX_LIMIT_BUY_ORDER_EX_TX [] 0 [] 0).SetOperatorRegid
        (some ⟨1, 2⟩)).GetOperatorRegid)
    ∧ CDEXBuyLimitOrderExTx.ComputeSignatureHash
        { (CDEXOrderBaseTx.construct DEX_LIMIT_BUY_ORDER_EX_TX [] 0 [] 0).SetOperatorRegid
            (some ⟨1, 2⟩) with
          signature := [7], operator_signature_pair := some ⟨⟨3, 4⟩, []⟩ } ≠
      CDEXBuyLimitOrderExTx.ComputeSignatureHash
        ((CDEXOrderBaseTx.construct DEX_LIMIT_BUY_ORDER_EX_TX [] 0 [] 0).SetOperatorRegid
          (some ⟨1, 2⟩)) :=
  ⟨by decide,
   ((exOrder_hash_signature_free_operator_regid_bound
      ((CDEXOrderBaseTx.construct DEX_LIMIT_BUY_ORDER_EX_TX [] 0 [] 0).SetOperatorRegid
        (some ⟨1, 2⟩)) [7] (some ⟨⟨1, 2⟩, [9]⟩)).1 (by decide)).1,
   by decide,
   ((exOrder_hash_signature_free_operator_regid_bound
      ((CDEXOrderBaseTx.construct DEX_LIMIT_BUY_ORDER_EX_TX [] 0 [] 0).SetOperatorRegid
        (some ⟨1, 2⟩)) [7] (some ⟨⟨3, 4⟩, []⟩)).2 (by decide)).1⟩

/-- Claim C8: decoding the canonical encoding of any `CDEXOrderDetail`,
`CDEXActiveOrder`, `DexOperatorDetail` or `DEXDealItem` yields the original
value with nothing left over, the duplicated `tx_cord` of `CDEXOrderDetail`
notwithstanding. -/
theorem dex_entity_encode_decode_roundtrip (d : CDEXOrderDetail)
    (a : CDEXActiveOrder) (o : DexOperatorDetail) (i : DEXDealItem)
    (hd : d.wf) (ha : a.wf) (hi : i.wf) :
    CDEXOrderDetail.deserialize d.serialize = some (d, [])
    ∧ CDEXActiveOrder.deserialize a.serialize = some (a, [])
    ∧ DexOperatorDetail.deserialize o.serialize = some (o, [])
    ∧ DEXDealItem.deserialize i.serialize = some (i, []) := by
  refine ⟨?_, ?_, ?_, ?_⟩
  · have h := orderDetail_roundtrip d hd []
    rwa [List.append_nil] at h
  · have h := activeOrder_roundtrip a ha []
    rwa [List.append_nil] at h
  · have h := dexOperator_roundtrip o []
    rwa [List.append_nil] at h
  · have h := dealItem_roundtrip i hi []
    rwa [List.append_nil] at h

/-- Claim C8 witness: the round trip evaluated on concrete well-formed
entities. -/
theorem dex_entity_encode_decode_roundtrip_witness :
    ((CDEXOrderDetail.defaultValue.wf ∧ (⟨USER_GEN_ORDER, ⟨1, 2⟩, 3, 4⟩ : CDEXActiveOrder).wf ∧
      (⟨List.replicate 32 7, List.replicate 32 8, 9, 10, 11⟩ : DEXDealItem).wf)
    ∧ (CDEXOrderDetail.deserialize CDEXOrderDetail.defaultValue.serialize =
        some (CDEXOrderDetail.defaultValue, [])
      ∧ CDEXActiveOrder.deserialize
          (⟨USER_GEN_ORDER, ⟨1, 2⟩, 3, 4⟩ : CDEXActiveOrder).serialize =
        some ((⟨USER_GEN_ORDER, ⟨1, 2⟩, 3, 4⟩ : CDEXActiveOrder), [])
      ∧ DexOperatorDetail.deserialize
          (⟨⟨1, 1⟩, ⟨2, 2⟩, [65], [66], 5, 6, [77]⟩ : DexOperatorDetail).serialize =
        some ((⟨⟨1, 1⟩, ⟨2, 2⟩, [65], [66], 5, 6, [77]⟩ : DexOperatorDetail), [])
      ∧ DEXDealItem.deserialize
          (⟨List.replicate 32 7, List.replicate 32 8, 9, 10, 11⟩ : DEXDealItem).serialize =
        some ((⟨List.replicate 32 7, List.replicate 32 8, 9, 10, 11⟩ : DEXDealItem), []))) :=
  ⟨⟨by decide, by decide, by decide⟩,
   dex_entity_encode_decode_roundtrip CDEXOrderDetail.defaultValue
     ⟨USER_GEN_ORDER, ⟨1, 2⟩, 3, 4⟩ ⟨⟨1, 1⟩, ⟨2, 2⟩, [65], [66], 5, 6, [77]⟩
     ⟨List.replicate 32 7, List.replicate 32 8, 9, 10, 11⟩
     (by decide) (by decide) (by decide)⟩
